import Mathlib

/-!
Verification development for the Voice-Controlled Task Manager's
Voice Interaction Engine.

The definitions below are a shallow embedding of the TypeScript source:

* `src/lib/voice.ts` — class `VoiceManager` (wake-word state machine,
  error classification, retry/backoff, permanent-disable logic) and the
  free function `parseDateFromSpeech`;
* `src/components/VoiceTaskCreator.tsx` — the slot-filling dialogue
  (`processAnswer`, `nextQuestion`, the `taskQuestions` flow);
* `src/lib/reminders.ts` — class `ReminderManager` (scheduling,
  triggering, persistence of reminders).

JavaScript strings are modelled as `List Char`; `String.includes`,
`toLowerCase` and `trim` are reproduced below.  Timestamps are integers
(milliseconds) and calendar dates are epoch-day numbers.  Recognizer,
synthesizer and timer callbacks are modelled as events consumed by a
step function over an explicit controller state; persistence
(`localStorage`) is modelled as a component of the scheduler state.
-/

namespace VoiceTask

/-! ## Strings: JS `toLowerCase`, `trim`, `includes` over `List Char` -/

/-- JS `String.prototype.toLowerCase` (ASCII-adequate model). -/
def toLowerStr (s : List Char) : List Char := s.map Char.toLower

/-- JS `String.prototype.trim`: drop leading and trailing whitespace. -/
def trimStr (s : List Char) : List Char :=
  (((s.dropWhile Char.isWhitespace).reverse).dropWhile Char.isWhitespace).reverse

/-- Does `s` start with `pat`? (helper for `includes`). -/
def startsWith : List Char → List Char → Bool
  | _, [] => true
  | [], _ :: _ => false
  | c :: cs, p :: ps => c == p && startsWith cs ps

/-- JS `String.prototype.includes`: substring containment. -/
def includes : List Char → List Char → Bool
  | [], pat => pat.isEmpty
  | s@(_ :: rest), pat => startsWith s pat || includes rest pat

/-- The normalization applied by `VoiceManager.onresult`:
`transcript.toLowerCase().trim()`. -/
def normalize (s : List Char) : List Char := trimStr (toLowerStr s)

/-! ## Speech Input Controller (`VoiceManager`, src/lib/voice.ts)

State fields mirror the instance fields of class `VoiceManager`
(stable version): `isListening`, `isWaitingForWakeWord`,
`isRecognizing`, `retryCount`, `maxRetries`, `permanentlyDisabled`,
`hasShownSecurityAlert`, and `retryTimeoutId` (modelled as
`pendingRetry`, tagged with the scheduling site so that the timer
callback runs the guard of the site that scheduled it). -/

/-- Which code site scheduled the pending retry timer
(`retryTimeoutId`); each site's callback has its own guard. -/
inductive RetrySource where
  | fromEnd       -- scheduled in `onend`
  | fromNetwork   -- scheduled in `onerror`, case "network"
  | fromNoSpeech  -- scheduled in `onerror`, case "no-speech"
  | fromUnknown   -- scheduled in `onerror`, default case
  deriving Repr, DecidableEq

structure VMState where
  isListening : Bool
  isWaitingForWakeWord : Bool
  isRecognizing : Bool
  retryCount : Nat
  permanentlyDisabled : Bool
  hasShownSecurityAlert : Bool
  recognitionAvailable : Bool
  pendingRetry : Option RetrySource
  deriving Repr, DecidableEq

/-- `this.maxRetries = 3`. -/
def maxRetries : Nat := 3

/-- `this.wakeWord = "hi voice"`. -/
def wakeWord : List Char := "hi voice".data

/-- Controller state right after `new VoiceManager()` in a browser with
speech recognition support. -/
def vmInit : VMState :=
  { isListening := false, isWaitingForWakeWord := false, isRecognizing := false
    retryCount := 0, permanentlyDisabled := false, hasShownSecurityAlert := false
    recognitionAvailable := true, pendingRetry := none }

/-- Events consumed by the controller: recognizer callbacks, the retry
timer firing, and the public API calls. `onResultFinal` carries the raw
transcript of a final recognition result; `errNetwork` carries whether
the origin is secure (HTTPS or localhost). -/
inductive VMEvent where
  | onStart
  | onEnd
  | onResultFinal (transcript : List Char)
  | errNetwork (secureOrigin : Bool)
  | errNotAllowed
  | errNoSpeech
  | errAborted
  | errUnknown
  | retryFire
  | startWakeWord
  | stopWakeWord
  | startActive
  | stopActive
  | resetRetry
  deriving Repr, DecidableEq

/-- Externally observable output of one step: whether the
`onWakeWordDetected` callback fired, and the transcript forwarded to
`onSpeechResult` (if any). -/
structure VMOutput where
  wakeFired : Bool
  speechOut : Option (List Char)
  deriving Repr, DecidableEq

def noOut : VMOutput := { wakeFired := false, speechOut := none }

/-- `VoiceManager.safeStart`: refuses when permanently disabled, when
recognition is unavailable, or when already recognizing; otherwise
starts the recognizer (the `InvalidStateError` catch also ends with
`isRecognizing = true`, so the success path models both). -/
def safeStart (s : VMState) : VMState :=
  if s.permanentlyDisabled then s
  else if !s.recognitionAvailable || s.isRecognizing then s
  else { s with isRecognizing := true }

/-- `VoiceManager.safeStop`. -/
def safeStop (s : VMState) : VMState :=
  if s.recognitionAvailable && s.isRecognizing then
    { s with isRecognizing := false }
  else s

/-- `VoiceManager.handleWakeWordDetected`: leave the waiting state,
`resetRetryCount()` (clears the counter and the pending timer), fire the
`onWakeWordDetected` callback, speak the acknowledgement. -/
def handleWakeWordDetected (s : VMState) : VMState :=
  { s with isWaitingForWakeWord := false, retryCount := 0, pendingRetry := none }

/-- One step of the controller, from the handlers installed in
`initializeRecognition` and the public methods of `VoiceManager`
(stable version of src/lib/voice.ts). -/
def step (s : VMState) : VMEvent → VMState × VMOutput
  | .onStart =>
      -- onstart: mark recognizing/listening; deliberately does NOT
      -- reset retryCount (see the comment in the source).
      ({ s with isRecognizing := true, isListening := true }, noOut)
  | .onEnd =>
      -- the restart condition reads flags the handler itself does not
      -- modify, so the intermediate state is inlined
      if s.isWaitingForWakeWord && !s.permanentlyDisabled
          && decide (s.retryCount < maxRetries) then
        ({ s with isRecognizing := false, isListening := false,
                  pendingRetry := some .fromEnd }, noOut)
      else
        ({ s with isRecognizing := false, isListening := false }, noOut)
  | .onResultFinal t =>
      if s.isWaitingForWakeWord then
        if includes (normalize t) wakeWord then
          (handleWakeWordDetected { s with retryCount := 0 },
           { wakeFired := true, speechOut := none })
        else ({ s with retryCount := 0 }, noOut)
      else
        ({ s with retryCount := 0 },
         { wakeFired := false, speechOut := some (normalize t) })
  | .errNetwork secureOrigin =>
      if !secureOrigin then
        ({ s with pendingRetry := none, isWaitingForWakeWord := false,
                  permanentlyDisabled := true, hasShownSecurityAlert := true }, noOut)
      else if decide (s.retryCount < maxRetries) then
        ({ s with retryCount := s.retryCount + 1,
                  pendingRetry := some .fromNetwork }, noOut)
      else
        ({ s with pendingRetry := none, isWaitingForWakeWord := false,
                  permanentlyDisabled := true, hasShownSecurityAlert := true }, noOut)
  | .errNotAllowed =>
      -- "not-allowed": alert, stop waiting for the wake word.  Note:
      -- `permanentlyDisabled` is NOT set here in the source.
      ({ s with pendingRetry := none, isWaitingForWakeWord := false }, noOut)
  | .errNoSpeech =>
      if s.isWaitingForWakeWord && decide (s.retryCount < maxRetries) then
        ({ s with pendingRetry := some .fromNoSpeech }, noOut)
      else ({ s with pendingRetry := none }, noOut)
  | .errAborted => ({ s with pendingRetry := none }, noOut)
  | .errUnknown =>
      if s.isWaitingForWakeWord && decide (s.retryCount < maxRetries) then
        ({ s with retryCount := s.retryCount + 1,
                  pendingRetry := some .fromUnknown }, noOut)
      else if decide (maxRetries ≤ s.retryCount) then
        ({ s with pendingRetry := none, isWaitingForWakeWord := false }, noOut)
      else ({ s with pendingRetry := none }, noOut)
  | .retryFire =>
      match s.pendingRetry with
      | none => (s, noOut)
      | some .fromEnd =>
          if s.isWaitingForWakeWord && !s.isRecognizing
              && !s.permanentlyDisabled then
            (safeStart { s with pendingRetry := none }, noOut)
          else ({ s with pendingRetry := none }, noOut)
      | some .fromNetwork =>
          if s.isWaitingForWakeWord && !s.isRecognizing then
            (safeStart { s with pendingRetry := none }, noOut)
          else ({ s with pendingRetry := none }, noOut)
      | some .fromNoSpeech =>
          if !s.isRecognizing then (safeStart { s with pendingRetry := none }, noOut)
          else ({ s with pendingRetry := none }, noOut)
      | some .fromUnknown =>
          if !s.isRecognizing then (safeStart { s with pendingRetry := none }, noOut)
          else ({ s with pendingRetry := none }, noOut)
  | .startWakeWord =>
      -- startWakeWordListening: always sets the waiting flag; resets
      -- retryCount only if not already recognizing; then safeStart().
      if !s.isRecognizing then
        (safeStart { s with isWaitingForWakeWord := true, retryCount := 0 }, noOut)
      else (safeStart { s with isWaitingForWakeWord := true }, noOut)
  | .stopWakeWord =>
      (safeStop { s with isWaitingForWakeWord := false, pendingRetry := none }, noOut)
  | .startActive =>
      (safeStart { s with isWaitingForWakeWord := false }, noOut)
  | .stopActive => (safeStop s, noOut)
  | .resetRetry => ({ s with retryCount := 0, pendingRetry := none }, noOut)

/-- Run a sequence of events, keeping only the final state. -/
def runVM (s : VMState) : List VMEvent → VMState
  | [] => s
  | e :: es => runVM (step s e).1 es

/-- Feed a sequence of final recognition results; the Bool records
whether the wake-word callback fired at any point. -/
def runFinals (s : VMState) : List (List Char) → VMState × Bool
  | [] => (s, false)
  | t :: ts =>
    let p := step s (.onResultFinal t)
    let q := runFinals p.1 ts
    (q.1, p.2.wakeFired || q.2)

/-! ## Dialogue Engine (`VoiceTaskCreator.processAnswer`,
src/components/VoiceTaskCreator.tsx)

The `taskQuestions` flow (src/lib/voice.ts) asks five slots in order:
title, description, priority, category, dueDate.  `processAnswer`
normalizes the transcript, applies the skip predicate, and otherwise
stores the value according to the slot's field.  The due-date string is
modelled as `Option Nat` (epoch day; `none` is the initial empty
string). -/

inductive TaskField where
  | title | description | priority | category | dueDate
  deriving Repr, DecidableEq

/-- The ordered `taskQuestions` fields. -/
def questions : List TaskField :=
  [.title, .description, .priority, .category, .dueDate]

/-- Field of the question at index `i` (only indices `< 5` are reachable
through the guard in `processAnswer`). -/
def fieldAt (i : Nat) : TaskField := questions.getD i .title

/-- The `TaskFormData` record built by the creator (initial values from
the component's `useState`). -/
structure TaskFormData where
  title : List Char
  description : List Char
  priority : List Char
  category : List Char
  dueDate : Option Nat
  deriving Repr, DecidableEq

/-- Initial `taskData`:
`{title: "", description: "", priority: "medium", category: "", dueDate: ""}`. -/
def initTaskData : TaskFormData :=
  { title := [], description := [], priority := "medium".data
    category := [], dueDate := none }

structure DialogueState where
  index : Nat
  data : TaskFormData
  deriving Repr, DecidableEq

def dInit : DialogueState := { index := 0, data := initTaskData }

/-- The skip predicate of `processAnswer`:
`lowerAnswer.includes("skip") || lowerAnswer.includes("no") || lowerAnswer === ""`. -/
def skipSignal (lower : List Char) : Bool :=
  includes lower "skip".data || includes lower "no".data || lower.isEmpty

/-- Priority resolution:
`["high","medium","low"].find(p => processedAnswer.includes(p)) || "medium"`. -/
def findPriority (lower : List Char) : List Char :=
  if includes lower "high".data then "high".data
  else if includes lower "medium".data then "medium".data
  else if includes lower "low".data then "low".data
  else "medium".data

/-- JS `Date.prototype.getDay` for an epoch-day number
(day 0 = 1970-01-01, a Thursday, so weekday `(d + 4) % 7`;
0 = Sunday, 1 = Monday). -/
def dayOfWeek (d : Nat) : Nat := (d + 4) % 7

/-- `parseDateFromSpeech` (src/lib/voice.ts, stable version): recognizes
"today", "tomorrow", "next week" and "monday"; everything else returns
the empty string, modelled as `none`.  `today` is the current epoch
day. -/
def parseDateFromSpeech (speech : List Char) (today : Nat) : Option Nat :=
  let text := toLowerStr speech
  if includes text "today".data then some today
  else if includes text "tomorrow".data then some (today + 1)
  else if includes text "next week".data then some (today + 7)
  else if includes text "monday".data then
    let diff := (1 + 7 - dayOfWeek today) % 7
    some (today + (if diff == 0 then 7 else diff))
  else none

/-- `VoiceTaskCreator.processAnswer` for the slot-filling phase
(`needsReminder` false).  Returns the new dialogue state and a flag that
is `true` exactly when the engine spoke the corrective
"Task title is required" prompt and re-asked without advancing; `false`
covers the advancing paths (skip of an optional slot, or store +
acknowledgement + `nextQuestion`). -/
def processAnswer (today : Nat) (s : DialogueState) (answer : List Char) :
    DialogueState × Bool :=
  if 5 ≤ s.index then (s, false)
  else
    let lower := normalize answer
    if skipSignal lower then
      if fieldAt s.index == TaskField.title then (s, true)
      else ({ s with index := s.index + 1 }, false)
    else
      let data :=
        match fieldAt s.index with
        | .title => { s.data with title := trimStr answer }
        | .description => { s.data with description := trimStr answer }
        | .priority => { s.data with priority := findPriority lower }
        | .category => { s.data with category := trimStr answer }
        | .dueDate =>
            match parseDateFromSpeech lower today with
            | some d => { s.data with dueDate := some d }
            | none => s.data
      ({ index := s.index + 1, data := data }, false)

/-- Run a sequence of answers through `processAnswer`. -/
def runAnswers (today : Nat) (s : DialogueState) : List (List Char) → DialogueState
  | [] => s
  | a :: as => runAnswers today (processAnswer today s a).1 as

/-! ## Reminder Scheduler (`ReminderManager`, src/lib/reminders.ts)

Ids are numbers, timestamps are integer milliseconds.  The JS `Map`s
`reminders` and `timeouts` are association lists keyed by id (`Map.set`
replaces in place); `localStorage` is the `saved` field; the stored task
list consulted by `getTaskById` is the read-only `tasks` field; `log`
records the reminder ids delivered to the registered
`onReminderTriggered` callback, in order. -/

inductive ReminderType where
  | notification | voice | both
  deriving Repr, DecidableEq

structure Reminder where
  id : Nat
  taskId : Nat
  reminderTime : Int
  isActive : Bool
  rType : ReminderType
  deriving Repr, DecidableEq

/-- A stored task, as far as the scheduler reads it (`getTaskById`
matches on `id`). -/
structure MTask where
  id : Nat
  title : List Char
  deriving Repr, DecidableEq

structure RMState where
  reminders : List Reminder
  timeouts : List Nat
  saved : List Reminder
  tasks : List MTask
  callbackRegistered : Bool
  log : List Nat
  deriving Repr, DecidableEq

/-- `Map.set` on the reminder map: replace the entry with the same id,
or append. -/
def setEntry : List Reminder → Reminder → List Reminder
  | [], r => [r]
  | x :: xs, r => if x.id == r.id then r :: xs else x :: setEntry xs r

/-- `Map.get` on the reminder map. -/
def findRem (l : List Reminder) (i : Nat) : Option Reminder :=
  l.find? (fun r => r.id == i)

/-- `timeouts.set(id, t)`: record that a timer exists for `id`. -/
def insertTimeout (l : List Nat) (i : Nat) : List Nat :=
  if l.contains i then l else l ++ [i]

/-- `ReminderManager.triggerReminder`: mark inactive, write back into
the map, drop the timeout entry, persist, then invoke the registered
callback with the reminder and its task — only if `getTaskById` finds
the task. -/
def triggerReminder (s : RMState) (r : Reminder) : RMState :=
  let s1 := { s with reminders := setEntry s.reminders { r with isActive := false },
                     timeouts := s.timeouts.filter (fun i => i != r.id) }
  let s2 := { s1 with saved := s1.reminders }
  if s2.callbackRegistered then
    match s2.tasks.find? (fun t => t.id == r.taskId) with
    | some _ => { s2 with log := s2.log ++ [r.id] }
    | none => s2
  else s2

/-- `ReminderManager.scheduleReminder`: if the due time has passed
(`timeUntilReminder <= 0`), trigger synchronously; otherwise set a timer
and record its id. -/
def scheduleReminder (now : Int) (s : RMState) (r : Reminder) : RMState :=
  if r.reminderTime - now ≤ 0 then triggerReminder s r
  else { s with timeouts := insertTimeout s.timeouts r.id }

/-- `ReminderManager.addReminder`: create an active reminder with a
fresh id, put it in the map, schedule it, persist. -/
def addReminder (now : Int) (s : RMState) (freshId taskId : Nat)
    (reminderTime : Int) (rType : ReminderType) : RMState :=
  let r : Reminder :=
    { id := freshId, taskId := taskId, reminderTime := reminderTime,
      isActive := true, rType := rType }
  let s1 := { s with reminders := setEntry s.reminders r }
  let s2 := scheduleReminder now s1 r
  { s2 with saved := s2.reminders }

/-- `ReminderManager.removeReminder`: cancel the pending timer if any,
delete the record, persist. -/
def removeReminder (s : RMState) (i : Nat) : RMState :=
  let s1 := { s with timeouts := s.timeouts.filter (fun j => j != i),
                     reminders := s.reminders.filter (fun r => r.id != i) }
  { s1 with saved := s1.reminders }

/-- `ReminderManager.loadReminders`: for each persisted reminder, put it
in the map and, if it is still active, schedule it (past-due ones
trigger immediately inside the loop). -/
def loadReminders (now : Int) (s : RMState) : List Reminder → RMState
  | [] => s
  | r :: rs =>
      let s1 := { s with reminders := setEntry s.reminders r }
      let s2 := if r.isActive then scheduleReminder now s1 r else s1
      loadReminders now s2 rs

/-! ## Concrete fixtures used in counterexamples and witnesses -/

/-- A controller state that is waiting for the wake word. -/
def wVM : VMState := { vmInit with isWaitingForWakeWord := true }

/-- A permanently disabled, idle controller state. -/
def disVM : VMState :=
  { vmInit with permanentlyDisabled := true, hasShownSecurityAlert := true }

/-- Three consecutive network errors on a secure origin while waiting
for the wake word, with the recognizer session endings and retry-timer
firings in between. -/
def netErrTrace3 : List VMEvent :=
  [.startWakeWord, .errNetwork true, .onEnd, .retryFire,
   .errNetwork true, .onEnd, .retryFire, .errNetwork true]

/-- The same run continued through the third scheduled retry into a
fourth network error. -/
def netErrTrace4 : List VMEvent :=
  netErrTrace3 ++ [.onEnd, .retryFire, .errNetwork true]

end VoiceTask

namespace VoiceTask

/-! ## Helper lemmas -/

theorem step_onResultFinal_no_match (s : VMState) (t : List Char)
    (h : s.isWaitingForWakeWord = true)
    (ht : includes (normalize t) wakeWord = false) :
    step s (.onResultFinal t) = ({ s with retryCount := 0 }, noOut) := by
  simp [step, h, ht]

/-! ## Claim theorems -/

/-- C1: while the controller waits for the wake word, a final
recognition result fires the wake-word callback iff the lower-cased,
trimmed transcript contains "hi voice" as a substring; and for any
sequence of final transcripts none of which contains the wake phrase,
the controller stays in the waiting-for-wake-word state and the
callback never fires. -/
theorem c1_wake_word_detection :
    (∀ (s : VMState) (t : List Char), s.isWaitingForWakeWord = true →
      (step s (.onResultFinal t)).2.wakeFired = includes (normalize t) wakeWord) ∧
    (∀ (s : VMState) (ts : List (List Char)), s.isWaitingForWakeWord = true →
      (∀ t ∈ ts, includes (normalize t) wakeWord = false) →
      (runFinals s ts).1.isWaitingForWakeWord = true ∧ (runFinals s ts).2 = false) := by
  constructor
  · intro s t h
    by_cases hm : includes (normalize t) wakeWord = true
    · simp [step, h, hm]
    · rw [Bool.not_eq_true] at hm
      simp [step, h, hm, noOut]
  · intro s ts
    induction ts generalizing s with
    | nil => intro h _; exact ⟨h, rfl⟩
    | cons t ts ih =>
      intro h hall
      have ht : includes (normalize t) wakeWord = false :=
        hall t (List.mem_cons_self t ts)
      have hs1 : (step s (.onResultFinal t)).1 = { s with retryCount := 0 } := by
        rw [step_onResultFinal_no_match s t h ht]
      have hw : (step s (.onResultFinal t)).2.wakeFired = false := by
        rw [step_onResultFinal_no_match s t h ht]; rfl
      have hrest := ih (step s (.onResultFinal t)).1
        (by rw [hs1]; exact h)
        (fun u hu => hall u (List.mem_cons_of_mem _ hu))
      refine ⟨?_, ?_⟩
      · simpa [runFinals] using hrest.1
      · simp [runFinals, hw, hrest.2]

/-- C1 witness: the embedded phrase "well, hi voice there" fires the
callback from the waiting state; two wake-word-free transcripts leave
the controller waiting and never fire it. -/
theorem c1_wake_word_detection_witness :
    ((step wVM (.onResultFinal "Well, hi voice there".data)).2.wakeFired = true) ∧
    ((runFinals wVM ["hello there".data, "open the door".data]).1.isWaitingForWakeWord = true ∧
      (runFinals wVM ["hello there".data, "open the door".data]).2 = false) := by
  refine ⟨?_, ?_⟩
  · rw [c1_wake_word_detection.1 wVM "Well, hi voice there".data (by decide)]
    decide
  · exact c1_wake_word_detection.2 wVM ["hello there".data, "open the door".data]
      (by decide) (by decide)

end VoiceTask

namespace VoiceTask

/-- C8: the retry counter reaches 0 only through a final recognition
result (which always resets it, whatever had accumulated), through
`startWakeWordListening` issued while no recognition session is running,
or through the explicit `resetRetryCount` call; the automatic restart
paths (`onend`, retry-timer firings, `onstart`) never touch it. -/
theorem c8_retry_reset_discipline :
    (∀ (s : VMState) (e : VMEvent),
        (step s e).1.retryCount = 0 → s.retryCount ≠ 0 →
        (∃ t, e = VMEvent.onResultFinal t) ∨
        (e = VMEvent.startWakeWord ∧ s.isRecognizing = false) ∨
        e = VMEvent.resetRetry) ∧
    (∀ (s : VMState) (t : List Char),
        (step s (VMEvent.onResultFinal t)).1.retryCount = 0) ∧
    (∀ s : VMState, s.isRecognizing = false →
        (step s VMEvent.startWakeWord).1.retryCount = 0) ∧
    (∀ s : VMState,
        (step s VMEvent.retryFire).1.retryCount = s.retryCount ∧
        (step s VMEvent.onEnd).1.retryCount = s.retryCount ∧
        (step s VMEvent.onStart).1.retryCount = s.retryCount) := by
  have hsafeStart : ∀ s : VMState, (safeStart s).retryCount = s.retryCount := by
    intro s
    unfold safeStart
    split
    · rfl
    · split <;> rfl
  have hsafeStop : ∀ s : VMState, (safeStop s).retryCount = s.retryCount := by
    intro s
    unfold safeStop
    split <;> rfl
  have hfire : ∀ s : VMState, (step s VMEvent.retryFire).1.retryCount = s.retryCount := by
    intro s
    rcases hp : s.pendingRetry with _ | src
    · simp [step, hp]
    · rcases src <;> simp only [step, hp] <;> split <;> simp [hsafeStart]
  have honEnd : ∀ s : VMState, (step s VMEvent.onEnd).1.retryCount = s.retryCount := by
    intro s
    simp only [step]
    split <;> rfl
  refine ⟨?_, ?_, ?_, ?_⟩
  · intro s e h hne
    cases e with
    | onStart => exact absurd h hne
    | onEnd => exact absurd ((honEnd s) ▸ h) hne
    | onResultFinal t => exact Or.inl ⟨t, rfl⟩
    | errNetwork secureOrigin =>
        exfalso
        simp only [step] at h
        split at h
        · exact hne h
        · split at h
          · exact Nat.succ_ne_zero _ h
          · exact hne h
    | errNotAllowed => exact absurd h hne
    | errNoSpeech =>
        exfalso
        simp only [step] at h
        split at h <;> exact hne h
    | errAborted => exact absurd h hne
    | errUnknown =>
        exfalso
        simp only [step] at h
        split at h
        · exact Nat.succ_ne_zero _ h
        · split at h <;> exact hne h
    | retryFire => exact absurd ((hfire s) ▸ h) hne
    | startWakeWord =>
        by_cases hr : s.isRecognizing = false
        · exact Or.inr (Or.inl ⟨rfl, hr⟩)
        · exfalso
          rw [Bool.not_eq_false] at hr
          simp [step, hr, hsafeStart] at h
          exact hne h
    | stopWakeWord =>
        exfalso
        simp only [step] at h
        rw [hsafeStop] at h
        exact hne h
    | startActive =>
        exfalso
        simp only [step] at h
        rw [hsafeStart] at h
        exact hne h
    | stopActive =>
        exfalso
        simp only [step] at h
        rw [hsafeStop] at h
        exact hne h
    | resetRetry => exact Or.inr (Or.inr rfl)
  · intro s t
    simp only [step]
    split
    · split
      · simp [handleWakeWordDetected]
      · rfl
    · rfl
  · intro s hr
    simp [step, hr, hsafeStart]
  · intro s
    exact ⟨hfire s, honEnd s, rfl⟩

/-- C8 witness: with two accumulated failures, a final result resets
the counter to 0; with two accumulated failures and no running session,
`startWakeWordListening` resets it; a retry-timer firing does not. -/
theorem c8_retry_reset_discipline_witness :
    (step { wVM with retryCount := 2 } (VMEvent.onResultFinal "hello".data)).1.retryCount = 0 ∧
    (step { wVM with retryCount := 2 } VMEvent.startWakeWord).1.retryCount = 0 ∧
    ((∃ t, VMEvent.resetRetry = VMEvent.onResultFinal t) ∨
      (VMEvent.resetRetry = VMEvent.startWakeWord ∧
        ({ wVM with retryCount := 2 } : VMState).isRecognizing = false) ∨
      VMEvent.resetRetry = VMEvent.resetRetry) := by
  refine ⟨c8_retry_reset_discipline.2.1 _ _, ?_, ?_⟩
  · exact c8_retry_reset_discipline.2.2.1 { wVM with retryCount := 2 } (by decide)
  · exact c8_retry_reset_discipline.1 { wVM with retryCount := 2 } VMEvent.resetRetry
      (by decide) (by decide)

/-- C2 counterexample: a run in which 3 consecutive network errors
occur while waiting for the wake word (with session ends and retry
firings in between) does NOT put the controller into the permanently
disabled state — after the third error the controller schedules yet
another retry (`retryCount = 3 < maxRetries` fails only on the next
error) — and a further `startWakeWordListening()` call still has full
effect: recognition starts again. -/
theorem c2_counterexample :
    (runVM vmInit netErrTrace3).permanentlyDisabled = false ∧
    (runVM vmInit netErrTrace3).retryCount = 3 ∧
    (runVM vmInit (netErrTrace3 ++ [.onEnd, .startWakeWord])).isRecognizing = true ∧
    (runVM vmInit (netErrTrace3 ++ [.onEnd, .startWakeWord])).retryCount = 0 := by
  refine ⟨rfl, rfl, rfl, rfl⟩

/-- C2 (amended): the controller becomes permanently disabled on the
4th consecutive network error — i.e. only once its budget of
maxRetries = 3 retries is exhausted and one further network error
arrives; once `permanentlyDisabled` is set, no event of the controller
(including `startWakeWordListening` and `resetRetryCount`) ever clears
it, and `startWakeWordListening` never starts recognition again. -/
theorem c2_disable_after_retry_budget :
    (runVM vmInit netErrTrace4).permanentlyDisabled = true ∧
    (∀ (s : VMState) (e : VMEvent), s.permanentlyDisabled = true →
        (step s e).1.permanentlyDisabled = true) ∧
    (∀ s : VMState, s.permanentlyDisabled = true → s.isRecognizing = false →
        (step s VMEvent.startWakeWord).1.isRecognizing = false) := by
  have hdis1 : ∀ r : VMState, r.permanentlyDisabled = true →
      (safeStart r).permanentlyDisabled = true := by
    intro r hd
    simp [safeStart, hd]
  have hdis2 : ∀ r : VMState, r.permanentlyDisabled = true →
      (safeStart r).isRecognizing = r.isRecognizing := by
    intro r hd
    simp [safeStart, hd]
  refine ⟨rfl, ?_, ?_⟩
  · intro s e hd
    cases e with
    | onStart => exact hd
    | onEnd => simp only [step]; split <;> exact hd
    | onResultFinal t =>
        simp only [step]
        split
        · split
          · exact hd
          · exact hd
        · exact hd
    | errNetwork secureOrigin =>
        simp only [step]
        split
        · rfl
        · split
          · exact hd
          · rfl
    | errNotAllowed => exact hd
    | errNoSpeech => simp only [step]; split <;> exact hd
    | errAborted => exact hd
    | errUnknown =>
        simp only [step]
        split
        · exact hd
        · split <;> exact hd
    | retryFire =>
        rcases hp : s.pendingRetry with _ | src
        · simp only [step, hp]; exact hd
        · rcases src <;> simp only [step, hp] <;> split <;>
            first
            | (apply hdis1; exact hd)
            | exact hd
    | startWakeWord =>
        simp only [step]
        split <;> (apply hdis1; exact hd)
    | stopWakeWord =>
        simp only [step, safeStop]
        split <;> exact hd
    | startActive =>
        simp only [step]
        apply hdis1
        exact hd
    | stopActive =>
        simp only [step, safeStop]
        split <;> exact hd
    | resetRetry => exact hd
  · intro s hd hr
    simp only [step]
    split <;> (refine Eq.trans (hdis2 _ ?_) hr; exact hd)

/-- C2 witness: concrete disabled state — a `startWakeWordListening`
call neither clears the disabled flag nor starts recognition. -/
theorem c2_disable_after_retry_budget_witness :
    (step disVM VMEvent.startWakeWord).1.permanentlyDisabled = true ∧
    (step disVM VMEvent.startWakeWord).1.isRecognizing = false := by
  exact ⟨c2_disable_after_retry_budget.2.1 disVM VMEvent.startWakeWord rfl,
    c2_disable_after_retry_budget.2.2 disVM rfl rfl⟩

/-- C6 counterexample: after a permission-denied ("not-allowed") error
the controller is NOT in the permanently disabled state, and listening
resumes through a plain `startWakeWordListening()` call — no manual
reset (and not even a reload) is required. -/
theorem c6_counterexample :
    (runVM vmInit [.startWakeWord, .errNotAllowed]).permanentlyDisabled = false ∧
    (runVM vmInit [.startWakeWord, .errNotAllowed, .onEnd, .startWakeWord]).isRecognizing
      = true ∧
    (runVM vmInit
        [.startWakeWord, .errNotAllowed, .onEnd, .startWakeWord]).isWaitingForWakeWord
      = true := by
  refine ⟨rfl, rfl, rfl⟩

/-- C6 (amended): on a permission-denied error the controller merely
leaves the waiting-for-wake-word state (and surfaces an alert); the
`permanentlyDisabled` flag is untouched — in particular it stays
`false` if it was `false` — and a subsequent `startWakeWordListening`
on a non-disabled idle controller starts recognition again. -/
theorem c6_not_allowed_behavior :
    (∀ s : VMState,
        (step s VMEvent.errNotAllowed).1.permanentlyDisabled = s.permanentlyDisabled ∧
        (step s VMEvent.errNotAllowed).1.isWaitingForWakeWord = false ∧
        (step s VMEvent.errNotAllowed).1.retryCount = s.retryCount) ∧
    (∀ s : VMState, s.permanentlyDisabled = false → s.isRecognizing = false →
        s.recognitionAvailable = true →
        (step s VMEvent.startWakeWord).1.isRecognizing = true) := by
  constructor
  · intro s
    exact ⟨rfl, rfl, rfl⟩
  · intro s hd hr ha
    simp [step, hr, safeStart, hd, ha]

/-- C6 witness: the controller state reached right after a
permission-denied error is not disabled, and a start call from the
subsequent idle state begins recognition. -/
theorem c6_not_allowed_behavior_witness :
    ((step wVM VMEvent.errNotAllowed).1.permanentlyDisabled = wVM.permanentlyDisabled ∧
      (step wVM VMEvent.errNotAllowed).1.isWaitingForWakeWord = false ∧
      (step wVM VMEvent.errNotAllowed).1.retryCount = wVM.retryCount) ∧
    (step vmInit VMEvent.startWakeWord).1.isRecognizing = true := by
  exact ⟨c6_not_allowed_behavior.1 wVM,
    c6_not_allowed_behavior.2 vmInit rfl rfl rfl⟩

/-! ## Dialogue Engine claims -/

/-- Apostrophe character (U+0027). -/
def apos : Char := Char.ofNat 39

/-- The priority answer of the end-to-end scenario:
the words I + apostrophe + d say high priority. -/
def c4PriorityAnswer : List Char := "I".data ++ (apos :: "d say high priority".data)

/-- C3: while the current slot is the required title slot (index 0), an
answer whose lower-cased trimmed form signals skip/negative/empty
(contains "skip" or "no", or is empty) makes the engine speak the
corrective re-ask prompt and leaves the dialogue state — slot index and
collected title included — completely unchanged. -/
theorem c3_required_title_reask :
    ∀ (today : Nat) (s : DialogueState) (answer : List Char),
      s.index = 0 → skipSignal (normalize answer) = true →
      processAnswer today s answer = (s, true) := by
  intro today s answer h0 hskip
  have hle : ¬ (5 : Nat) ≤ s.index := by omega
  simp [processAnswer, hle, hskip, h0, fieldAt, questions]

/-- C3 witness: the answer "skip" at the title slot of a fresh dialogue
re-asks without advancing, and the collected title stays unset. -/
theorem c3_required_title_reask_witness :
    processAnswer 0 dInit "skip".data = (dInit, true) ∧ dInit.data.title = [] := by
  exact ⟨c3_required_title_reask 0 dInit "skip".data rfl (by decide), rfl⟩

/-- C4: the answer sequence title "Buy milk", description "skip",
priority "I(')d say high priority", category "skip", dueDate "tomorrow"
produces the draft with title "Buy milk", priority "high", due date
tomorrow, and description/category unset; moreover the enumerated
priority slot resolves to the first of high/medium/low contained in the
answer and defaults to "medium" when none matches. -/
theorem c4_end_to_end :
    (∀ today : Nat,
        runAnswers today dInit
            ["Buy milk".data, "skip".data, c4PriorityAnswer, "skip".data,
              "tomorrow".data] =
          { index := 5,
            data := { title := "Buy milk".data, description := [],
                      priority := "high".data, category := [],
                      dueDate := some (today + 1) } }) ∧
    (∀ lower : List Char, includes lower "high".data = true →
        findPriority lower = "high".data) ∧
    (∀ lower : List Char,
        includes lower "high".data = false →
        includes lower "medium".data = false →
        includes lower "low".data = false →
        findPriority lower = "medium".data) := by
  refine ⟨fun today => rfl, ?_, ?_⟩
  · intro lower h
    simp [findPriority, h]
  · intro lower h1 h2 h3
    simp [findPriority, h1, h2, h3]

/-- C4 witness: instantiation of the scenario at day 0, plus both
priority-resolution conjuncts at concrete answers. -/
theorem c4_end_to_end_witness :
    runAnswers 0 dInit
        ["Buy milk".data, "skip".data, c4PriorityAnswer, "skip".data,
          "tomorrow".data] =
      { index := 5,
        data := { title := "Buy milk".data, description := [],
                  priority := "high".data, category := [],
                  dueDate := some 1 } } ∧
    findPriority "very high please".data = "high".data ∧
    findPriority "urgent".data = "medium".data := by
  exact ⟨c4_end_to_end.1 0,
    c4_end_to_end.2.1 "very high please".data (by decide),
    c4_end_to_end.2.2 "urgent".data (by decide) (by decide) (by decide)⟩

/-- C7 (amended): the phrase-to-date resolver recognizes "today",
"tomorrow" and "next week"; among weekday names it recognizes only
"monday" (mapped to the next Monday, 1 to 7 days ahead); any phrase it
cannot resolve leaves the due-date field unset while the dialogue still
advances past the date slot (as do skip-classified answers). -/
theorem c7_date_resolver :
    (∀ today : Nat,
        parseDateFromSpeech "today".data today = some today ∧
        parseDateFromSpeech "tomorrow".data today = some (today + 1) ∧
        parseDateFromSpeech "next week".data today = some (today + 7)) ∧
    (∀ today : Nat, ∃ k, 1 ≤ k ∧ k ≤ 7 ∧
        parseDateFromSpeech "monday".data today = some (today + k) ∧
        dayOfWeek (today + k) = 1) ∧
    (∀ (today : Nat) (s : DialogueState) (a : List Char),
        s.index = 4 → skipSignal (normalize a) = false →
        parseDateFromSpeech (normalize a) today = none →
        processAnswer today s a = ({ s with index := 5 }, false)) ∧
    (∀ (today : Nat) (s : DialogueState) (a : List Char),
        s.index = 4 → skipSignal (normalize a) = true →
        processAnswer today s a = ({ s with index := 5 }, false)) := by
  refine ⟨fun today => ⟨rfl, rfl, rfl⟩, ?_, ?_, ?_⟩
  · intro today
    have hred : parseDateFromSpeech "monday".data today =
        some (today + (if (1 + 7 - dayOfWeek today) % 7 == 0 then 7
                       else (1 + 7 - dayOfWeek today) % 7)) := rfl
    by_cases hz : (1 + 7 - dayOfWeek today) % 7 = 0
    · refine ⟨7, by omega, by omega, ?_, ?_⟩
      · rw [hred]
        simp [hz]
      · unfold dayOfWeek at hz ⊢
        omega
    · refine ⟨(1 + 7 - dayOfWeek today) % 7, ?_, ?_, ?_, ?_⟩
      · unfold dayOfWeek at hz ⊢
        omega
      · unfold dayOfWeek at hz ⊢
        omega
      · rw [hred]
        simp [hz]
      · unfold dayOfWeek at hz ⊢
        omega
  · intro today s a h4 hskip hparse
    obtain ⟨n, d⟩ := s
    simp only at h4
    subst h4
    have hle : ¬ (5 : Nat) ≤ 4 := by omega
    simp [processAnswer, hle, hskip, hparse, fieldAt, questions]
  · intro today s a h4 hskip
    obtain ⟨n, d⟩ := s
    simp only at h4
    subst h4
    have hle : ¬ (5 : Nat) ≤ 4 := by omega
    simp [processAnswer, hle, hskip, fieldAt, questions]

/-- C7 counterexample: weekday names other than "monday" are NOT
recognized — "friday" (which the question prompt itself suggests) and
"tuesday" resolve to nothing, refuting the claim that the resolver
recognizes weekday names. -/
theorem c7_counterexample :
    parseDateFromSpeech "friday".data 0 = none ∧
    parseDateFromSpeech "tuesday".data 0 = none ∧
    parseDateFromSpeech "next friday".data 0 = none := by
  refine ⟨rfl, rfl, rfl⟩

/-- C7 witness: the recognized phrases at day 0; "monday" from day 3
(a Sunday) lands one day later on a Monday; an unresolvable non-skip
phrase ("someday") advances the dialogue from the date slot leaving the
due date unset. -/
theorem c7_date_resolver_witness :
    (parseDateFromSpeech "today".data 0 = some 0 ∧
      parseDateFromSpeech "tomorrow".data 0 = some 1 ∧
      parseDateFromSpeech "next week".data 0 = some 7) ∧
    (∃ k, 1 ≤ k ∧ k ≤ 7 ∧
      parseDateFromSpeech "monday".data 3 = some (3 + k) ∧
      dayOfWeek (3 + k) = 1) ∧
    processAnswer 0 { index := 4, data := initTaskData } "someday".data =
      ({ index := 5, data := initTaskData }, false) := by
  refine ⟨c7_date_resolver.1 0, c7_date_resolver.2.1 3, ?_⟩
  exact c7_date_resolver.2.2.1 0 { index := 4, data := initTaskData }
    "someday".data rfl (by decide) (by decide)

/-- C9: any answer whose lower-cased trimmed form contains "no" or
"skip" as a substring — even as part of a longer word or of a genuine
value — is treated as a skip at every optional slot (index 1 to 4): the
collected data is left untouched (the spoken value is not stored) and
the flow advances to the next slot. -/
theorem c9_skip_substring_optional :
    ∀ (today : Nat) (s : DialogueState) (answer : List Char),
      s.index < 5 → s.index ≠ 0 → skipSignal (normalize answer) = true →
      processAnswer today s answer = ({ s with index := s.index + 1 }, false) := by
  intro today s answer h5 h0 hskip
  obtain ⟨n, d⟩ := s
  simp only at h5 h0
  have hf : (fieldAt n == TaskField.title) = false := by
    interval_cases n
    · exact absurd rfl h0
    · rfl
    · rfl
    · rfl
    · rfl
  have hle : ¬ (5 : Nat) ≤ n := by omega
  simp [processAnswer, hle, hskip, hf]

/-- C9 witness: at the description slot, the answer
"renovate the kitchen" contains "no" inside "renovate", so the spoken
description is dropped and the flow advances with the data unchanged. -/
theorem c9_skip_substring_optional_witness :
    processAnswer 0 { index := 1, data := initTaskData }
        "renovate the kitchen".data =
      ({ index := 2, data := initTaskData }, false) := by
  exact c9_skip_substring_optional 0 { index := 1, data := initTaskData }
    "renovate the kitchen".data (by decide) (by decide) (by decide)

/-! ## Reminder Scheduler claims -/

/-- Looking up an id right after `Map.set` with that id yields the
freshly written record. -/
theorem findRem_setEntry (l : List Reminder) (r : Reminder) :
    findRem (setEntry l r) r.id = some r := by
  induction l with
  | nil => simp [setEntry, findRem]
  | cons x xs ih =>
      by_cases hx : (x.id == r.id) = true
      · simp [setEntry, hx, findRem]
      · rw [Bool.not_eq_true] at hx
        simp only [setEntry, hx]
        simp only [findRem] at ih ⊢
        simp [List.find?, hx, ih]

/-- Removing an id from the timeout map really removes it. -/
theorem not_mem_filter_id (l : List Nat) (x : Nat) :
    x ∉ l.filter (fun i => i != x) := by
  simp [List.mem_filter]

/-- A fixture scheduler state: one stored task (id 7), a registered
trigger callback, nothing scheduled yet. -/
def rmFix : RMState :=
  { reminders := [], timeouts := [], saved := []
    tasks := [{ id := 7, title := "Buy milk".data }]
    callbackRegistered := true, log := [] }

/-- A reminder for task 7 that was due at time 0 (five minutes before
the fixture clock 300000 ms). -/
def rPast : Reminder :=
  { id := 1, taskId := 7, reminderTime := 0, isActive := true, rType := .both }

/-- C5: scheduling a reminder whose due time is at or before the
current time triggers it synchronously: the registered callback is
invoked exactly once for it (one new log entry), the reminder is marked
inactive in the map, the persisted set equals the map afterwards, and
no timer exists for it.  The same holds for an active past-due reminder
reconstituted by `loadReminders`, and loading an inactive reminder
never schedules or re-triggers it (so a triggered reminder stays
triggered across restarts). -/
theorem c5_past_due_fires_once :
    (∀ (now : Int) (s : RMState) (r : Reminder),
        r.reminderTime ≤ now →
        s.callbackRegistered = true →
        (s.tasks.find? (fun t => t.id == r.taskId)).isSome = true →
        (scheduleReminder now s r).log = s.log ++ [r.id] ∧
        findRem (scheduleReminder now s r).reminders r.id =
          some { r with isActive := false } ∧
        (scheduleReminder now s r).saved = (scheduleReminder now s r).reminders ∧
        r.id ∉ (scheduleReminder now s r).timeouts) ∧
    (∀ (now : Int) (s : RMState) (r : Reminder),
        r.isActive = true → r.reminderTime ≤ now →
        s.callbackRegistered = true →
        (s.tasks.find? (fun t => t.id == r.taskId)).isSome = true →
        (loadReminders now s [r]).log = s.log ++ [r.id] ∧
        findRem (loadReminders now s [r]).reminders r.id =
          some { r with isActive := false } ∧
        (loadReminders now s [r]).saved = (loadReminders now s [r]).reminders ∧
        r.id ∉ (loadReminders now s [r]).timeouts) ∧
    (∀ (now : Int) (s : RMState) (r : Reminder),
        r.isActive = false →
        loadReminders now s [r] = { s with reminders := setEntry s.reminders r }) := by
  have htrig : ∀ (s : RMState) (r : Reminder),
      s.callbackRegistered = true →
      (s.tasks.find? (fun t => t.id == r.taskId)).isSome = true →
      (triggerReminder s r).log = s.log ++ [r.id] ∧
      (triggerReminder s r).reminders =
        setEntry s.reminders { r with isActive := false } ∧
      (triggerReminder s r).saved = (triggerReminder s r).reminders ∧
      (triggerReminder s r).timeouts = s.timeouts.filter (fun i => i != r.id) := by
    intro s r hcb htask
    obtain ⟨tsk, htsk⟩ := Option.isSome_iff_exists.mp htask
    simp [triggerReminder, hcb, htsk]
  have hsched : ∀ (now : Int) (s : RMState) (r : Reminder),
      r.reminderTime ≤ now → scheduleReminder now s r = triggerReminder s r := by
    intro now s r hdue
    unfold scheduleReminder
    rw [if_pos (by omega)]
  refine ⟨?_, ?_, ?_⟩
  · intro now s r hdue hcb htask
    obtain ⟨hlog, hrem, hsaved, htime⟩ := htrig s r hcb htask
    rw [hsched now s r hdue]
    refine ⟨hlog, ?_, hsaved, ?_⟩
    · rw [hrem]
      exact findRem_setEntry _ _
    · rw [htime]
      exact not_mem_filter_id _ _
  · intro now s r hact hdue hcb htask
    have hload : loadReminders now s [r] =
        scheduleReminder now { s with reminders := setEntry s.reminders r } r := by
      simp [loadReminders, hact]
    set s1 : RMState := { s with reminders := setEntry s.reminders r } with hs1
    obtain ⟨hlog, hrem, hsaved, htime⟩ :=
      htrig s1 r (by rw [hs1]; exact hcb) (by rw [hs1]; exact htask)
    rw [hload, hsched now s1 r hdue]
    refine ⟨hlog, ?_, hsaved, ?_⟩
    · rw [hrem]
      exact findRem_setEntry _ _
    · rw [htime]
      exact not_mem_filter_id _ _
  · intro now s r hact
    simp [loadReminders, hact]

/-- C5 witness: an active reminder due at time 0, scheduled (directly
and via persistence reload) at time 300000 with its task present,
fires exactly once, ends up inactive, persisted, and timer-free. -/
theorem c5_past_due_fires_once_witness :
    ((scheduleReminder 300000 rmFix rPast).log = rmFix.log ++ [rPast.id] ∧
      findRem (scheduleReminder 300000 rmFix rPast).reminders rPast.id =
        some { rPast with isActive := false } ∧
      (scheduleReminder 300000 rmFix rPast).saved =
        (scheduleReminder 300000 rmFix rPast).reminders ∧
      rPast.id ∉ (scheduleReminder 300000 rmFix rPast).timeouts) ∧
    (loadReminders 300000 rmFix [rPast]).log = rmFix.log ++ [rPast.id] := by
  refine ⟨c5_past_due_fires_once.1 300000 rmFix rPast (by decide) rfl (by decide), ?_⟩
  exact (c5_past_due_fires_once.2.1 300000 rmFix rPast rfl (by decide) rfl
    (by decide)).1

/-- C10: when a reminder triggers but no stored task carries its
taskId, the reminder is still marked inactive and the change is
persisted, no timer remains for it, but the trigger callback log is
unchanged — the delivery is silently dropped. -/
theorem c10_missing_task_silent_drop :
    ∀ (s : RMState) (r : Reminder),
      s.tasks.find? (fun t => t.id == r.taskId) = none →
      (triggerReminder s r).log = s.log ∧
      findRem (triggerReminder s r).reminders r.id =
        some { r with isActive := false } ∧
      (triggerReminder s r).saved = (triggerReminder s r).reminders ∧
      r.id ∉ (triggerReminder s r).timeouts := by
  intro s r htask
  by_cases hcb : s.callbackRegistered = true
  · refine ⟨?_, ?_, ?_, ?_⟩ <;> simp [triggerReminder, hcb, htask, findRem_setEntry,
      not_mem_filter_id]
  · rw [Bool.not_eq_true] at hcb
    refine ⟨?_, ?_, ?_, ?_⟩ <;> simp [triggerReminder, hcb, htask, findRem_setEntry,
      not_mem_filter_id]

/-- C10 witness: triggering the past-due reminder in a state whose task
store is empty leaves the callback log empty while the reminder is
deactivated and persisted. -/
theorem c10_missing_task_silent_drop_witness :
    (triggerReminder { rmFix with tasks := [] } rPast).log =
      ({ rmFix with tasks := [] } : RMState).log ∧
    findRem (triggerReminder { rmFix with tasks := [] } rPast).reminders rPast.id =
      some { rPast with isActive := false } := by
  have h := c10_missing_task_silent_drop { rmFix with tasks := [] } rPast rfl
  exact ⟨h.1, h.2.1⟩

end VoiceTask
